import Mathlib

/-!
Shallow embedding of the PDF flipbook viewer (`FlipbookViewer` class in the
flipbook script).  JavaScript numbers carrying page indices and counts are
modelled as `ℤ`, real-valued pixel arithmetic as `ℚ`, and the two page-state
sets (`renderedPages`, `renderingPages`, both JS `Set`s of page numbers) as
`Finset ℤ`.  Asynchronous external effects (PDF.js calls, canvas lookup) are
modelled by outcome parameters; DOM-only mutations (innerHTML, canvas sizing,
CSS) carry no viewer state and are omitted.
-/

namespace Flipbook

/-- The mutable fields of the `FlipbookViewer` instance that the page
rasterization / layout engine reads and writes (constructor lines: `pdfDoc`,
`totalPages`, `currentPage`, `pageWidth`, `pageHeight`, `isLoading`,
`renderedPages`, `renderingPages`).  The document handle is abstracted to an
identifier; DOM element fields are omitted. -/
structure ViewerState where
  pdfDoc : Option ℕ
  totalPages : ℤ
  currentPage : ℤ
  pageWidth : ℤ
  pageHeight : ℤ
  isLoading : Bool
  renderedPages : Finset ℤ
  renderingPages : Finset ℤ
deriving DecidableEq

/-- The state set up by the `FlipbookViewer` constructor. -/
def initialState : ViewerState :=
  { pdfDoc := none
    totalPages := 0
    currentPage := 1
    pageWidth := 0
    pageHeight := 0
    isLoading := false
    renderedPages := ∅
    renderingPages := ∅ }

/-- Result of `wrapper.getBoundingClientRect()`: the container's size. -/
structure Rect where
  width : ℚ
  height : ℚ
deriving DecidableEq

/-- `calculateDimensions()`: computes page dimensions from the
`.flipbook-wrapper` bounds with a 40px margin and the fixed letter aspect
ratio 8.5/11.  A missing wrapper (`wrapper = none`) returns the literal
`{width: 400, height: 500}` without touching the instance fields.  Otherwise
the floored width/height are stored in `pageWidth`/`pageHeight` and also
returned.  Returns (new state, returned value). -/
def calculateDimensions (s : ViewerState) (wrapper : Option Rect) :
    ViewerState × Option (ℤ × ℤ) :=
  match wrapper with
  | none => (s, some (400, 500))
  | some wrapperRect =>
    let availableWidth : ℚ := wrapperRect.width - 40
    let availableHeight : ℚ := wrapperRect.height - 40
    let aspectRatio : ℚ := 8.5 / 11
    let pageHeight : ℚ := availableHeight
    let pageWidth : ℚ := pageHeight * aspectRatio
    let dims : ℚ × ℚ :=
      if pageWidth * 2 > availableWidth then
        (availableWidth / 2, availableWidth / 2 / aspectRatio)
      else
        (pageWidth, pageHeight)
    let s2 := { s with pageWidth := ⌊dims.1⌋, pageHeight := ⌊dims.2⌋ }
    (s2, some (s2.pageWidth, s2.pageHeight))

/-- `calculateDimensionsForPdf(aspectRatio)`: same two-branch fit computation
with a 60px margin and the PDF's actual aspect ratio.  A missing wrapper
returns early with no field change; the JS function returns `undefined` in
every path, so only the state is produced. -/
def calculateDimensionsForPdf (s : ViewerState) (wrapper : Option Rect)
    (aspectRatio : ℚ) : ViewerState :=
  match wrapper with
  | none => s
  | some wrapperRect =>
    let availableWidth : ℚ := wrapperRect.width - 60
    let availableHeight : ℚ := wrapperRect.height - 60
    let pageHeight : ℚ := availableHeight
    let pageWidth : ℚ := pageHeight * aspectRatio
    let dims : ℚ × ℚ :=
      if pageWidth * 2 > availableWidth then
        (availableWidth / 2, availableWidth / 2 / aspectRatio)
      else
        (pageWidth, pageHeight)
    { s with pageWidth := ⌊dims.1⌋, pageHeight := ⌊dims.2⌋ }

/-- Modelled from the spec's words (dimension-calculator contract): start from
the height-constrained pair (height `H`, width `H × r`); if the doubled width
exceeds the available width `W`, instead take width `W / 2` and derive the
height from it; floor both to integer pixels.  Used only to compare the
spec's description against the code's `calculateDimensions` functions. -/
def specPageDims (W H r : ℚ) : ℤ × ℤ :=
  let pageHeight : ℚ := H
  let pageWidth : ℚ := H * r
  if 2 * pageWidth > W then
    (⌊W / 2⌋, ⌊W / 2 / r⌋)
  else
    (⌊pageWidth⌋, ⌊pageHeight⌋)

/-- Outcome of the asynchronous external calls inside `renderPage`, once the
guard has been passed: `this.pdfDoc.getPage(pageNum)` may reject
(`getPageFail`), the canvas lookup may return null (`noCanvas`), and
`page.render(...)` may reject (`renderFail`) or resolve (`success`). -/
inductive RenderOutcome where
  | getPageFail
  | noCanvas
  | renderFail
  | success
deriving DecidableEq

/-- `renderPage(pageNum)` as a state transformer.  The second component counts
the rasterization calls performed (invocations of `page.render`).  Guard: skip
if already rendered, currently rendering, or past `totalPages`.  Otherwise the
page is added to `renderingPages`; on success it is added to `renderedPages`;
in every non-guard path the `finally` block (or the early `return` on a
missing canvas) removes it from `renderingPages`. -/
def renderPage (s : ViewerState) (pageNum : ℤ) (out : RenderOutcome) :
    ViewerState × ℕ :=
  if pageNum ∈ s.renderedPages ∨ pageNum ∈ s.renderingPages ∨
      pageNum > s.totalPages then
    (s, 0)
  else
    let s1 := { s with renderingPages := insert pageNum s.renderingPages }
    match out with
    | .getPageFail =>
      ({ s1 with renderingPages := s1.renderingPages.erase pageNum }, 0)
    | .noCanvas =>
      ({ s1 with renderingPages := s1.renderingPages.erase pageNum }, 0)
    | .renderFail =>
      ({ s1 with renderingPages := s1.renderingPages.erase pageNum }, 1)
    | .success =>
      ({ s1 with renderedPages := insert pageNum s1.renderedPages
                 renderingPages := s1.renderingPages.erase pageNum }, 1)

/-- The filter applied to every candidate page in `renderVisiblePages`:
`pageNum > 0 && pageNum <= this.totalPages && !renderedPages.has(pageNum) &&
!renderingPages.has(pageNum)`. -/
def shouldRender (s : ViewerState) (pageNum : ℤ) : Prop :=
  0 < pageNum ∧ pageNum ≤ s.totalPages ∧ pageNum ∉ s.renderedPages ∧
    pageNum ∉ s.renderingPages

instance (s : ViewerState) (pageNum : ℤ) : Decidable (shouldRender s pageNum) := by
  unfold shouldRender
  infer_instance

/-- The `adjacentPages` array of `renderVisiblePages`:
`[view[0]-1, view[0]-2, view[view.length-1]+1, view[view.length-1]+2]`.
Turn.js always supplies a non-empty `view`; the default `0` is never used for
the views the theorems quantify over. -/
def adjacentPages (view : List ℤ) : List ℤ :=
  [view.headD 0 - 1, view.headD 0 - 2, view.getLastD 0 + 1, view.getLastD 0 + 2]

/-- The `pagesToRender` list computed by `renderVisiblePages`: the visible
pages passing the filter, followed by the adjacent (preload) pages passing the
same filter. -/
def computePagesToRender (s : ViewerState) (view : List ℤ) : List ℤ :=
  view.filter (fun pageNum => decide (shouldRender s pageNum)) ++
    (adjacentPages view).filter (fun pageNum => decide (shouldRender s pageNum))

/-- `renderVisiblePages()`: computes `pagesToRender` from the current view and
state, then runs `renderPage` for each entry.  `Promise.all` over distinct
page numbers is modelled as sequential execution (each `renderPage` touches
only its own page's membership, so the final state is the same); `outs` gives
each page's asynchronous outcome. -/
def renderVisiblePages (s : ViewerState) (view : List ℤ)
    (outs : ℤ → RenderOutcome) : ViewerState :=
  (computePagesToRender s view).foldl (fun t pageNum => (renderPage t pageNum (outs pageNum)).1) s

/-- `createFlipbookPages()`: clears `renderedPages` and rebuilds the page
divs/canvases (DOM only). -/
def createFlipbookPages (s : ViewerState) : ViewerState :=
  { s with renderedPages := ∅ }

/-- `initTurnJs()`: configures Turn.js (DOM only) and sets `currentPage = 1`. -/
def initTurnJs (s : ViewerState) : ViewerState :=
  { s with currentPage := 1 }

/-- `destroyFlipbook()`: tears down Turn.js and the page DOM, and clears both
`renderedPages` and `renderingPages`. -/
def destroyFlipbook (s : ViewerState) : ViewerState :=
  { s with renderedPages := ∅
           renderingPages := ∅ }

/-- The debounced body of `handleResize()` up to and including
`this.renderedPages.clear()`: guard on a missing document, recompute
dimensions from the PDF's aspect ratio (supplied by `getPage(1)`), resize
Turn.js (DOM only), and clear `renderedPages`.  Note `renderingPages` is not
touched here. -/
def handleResizeRecalc (s : ViewerState) (wrapper : Option Rect)
    (aspectRatio : ℚ) : ViewerState :=
  match s.pdfDoc with
  | none => s
  | some _ =>
    let s1 := calculateDimensionsForPdf s wrapper aspectRatio
    { s1 with renderedPages := ∅ }

/-- The full debounced `handleResize()` body: the recalculation above followed
by `await this.renderVisiblePages()`. -/
def handleResize (s : ViewerState) (wrapper : Option Rect) (aspectRatio : ℚ)
    (view : List ℤ) (outs : ℤ → RenderOutcome) : ViewerState :=
  match s.pdfDoc with
  | none => s
  | some _ => renderVisiblePages (handleResizeRecalc s wrapper aspectRatio) view outs

/-- Result of `pdfjsLib.getDocument(source)` together with the data read from
the loaded document: its page count and first-page aspect ratio. -/
inductive LoadResult where
  | failure
  | success (numPages : ℤ) (aspectRatio : ℚ)

/-- `loadPdf(source)` as a state transformer.  Returns immediately when
`isLoading`; otherwise sets `isLoading`, destroys the previous flipbook, and
either fails (caught: overlay hidden, `isLoading` reset, no further state
change) or installs the new document handle and page count, recomputes
dimensions, rebuilds pages, initializes Turn.js, and renders the first
visible window; `finally` resets `isLoading`. -/
def loadPdf (s : ViewerState) (docId : ℕ) (res : LoadResult)
    (wrapper : Option Rect) (view : List ℤ) (outs : ℤ → RenderOutcome) :
    ViewerState :=
  if s.isLoading then s
  else
    let s1 := destroyFlipbook { s with isLoading := true }
    match res with
    | .failure => { s1 with isLoading := false }
    | .success numPages aspect =>
      let s2 := { s1 with pdfDoc := some docId
                          totalPages := numPages }
      let s3 := calculateDimensionsForPdf s2 wrapper aspect
      let s4 := createFlipbookPages s3
      let s5 := initTurnJs s4
      let s6 := renderVisiblePages s5 view outs
      { s6 with isLoading := false }

/-- One synchronous segment of viewer execution.  The event loop is
single-threaded: state mutations happen in uninterrupted synchronous runs
between `await` suspension points, and these constructors are exactly those
runs.  `renderEntry` is `renderPage`'s guard plus `renderingPages.add` (no
`await` in between); `renderAbort` covers the three non-success completions
(`getPage` rejection, missing canvas, `render` rejection), each of which only
deletes the page from `renderingPages`; `renderSuccess` is the segment after
`page.render` resolves: `renderedPages.add` followed synchronously by the
`finally` delete.  `destroy`, `createPages` and `resizeClear` are the
synchronous set mutations of `destroyFlipbook`, `createFlipbookPages` and
`handleResize`; `setFields` covers every write to the non-set fields
(`loadPdf`'s flag/handle/count writes, dimension recomputation, Turn.js
callbacks updating `currentPage`), none of which can affect the page-state
sets. -/
inductive Step : ViewerState → ViewerState → Prop where
  | renderEntry (s : ViewerState) (p : ℤ)
      (h : ¬(p ∈ s.renderedPages ∨ p ∈ s.renderingPages ∨ p > s.totalPages)) :
      Step s { s with renderingPages := insert p s.renderingPages }
  | renderAbort (s : ViewerState) (p : ℤ) :
      Step s { s with renderingPages := s.renderingPages.erase p }
  | renderSuccess (s : ViewerState) (p : ℤ) :
      Step s { s with renderedPages := insert p s.renderedPages
                      renderingPages := s.renderingPages.erase p }
  | destroy (s : ViewerState) : Step s (destroyFlipbook s)
  | createPages (s : ViewerState) : Step s (createFlipbookPages s)
  | resizeClear (s : ViewerState) : Step s { s with renderedPages := ∅ }
  | setFields (s : ViewerState) (d : Option ℕ) (n c w h : ℤ) (l : Bool) :
      Step s { s with pdfDoc := d
                      totalPages := n
                      currentPage := c
                      pageWidth := w
                      pageHeight := h
                      isLoading := l }

/-- A viewer state reachable from the freshly constructed instance by
synchronous execution segments. -/
def Reachable (s : ViewerState) : Prop :=
  Relation.ReflTransGen Step initialState s

/-- The page-state invariant: no page index is simultaneously in
`renderedPages` and `renderingPages`. -/
def pageSetsDisjoint (s : ViewerState) : Prop :=
  ∀ p : ℤ, ¬(p ∈ s.renderedPages ∧ p ∈ s.renderingPages)

lemma step_preserves_disjoint {s t : ViewerState} (hst : Step s t)
    (hs : pageSetsDisjoint s) : pageSetsDisjoint t := by
  cases hst with
  | renderEntry p h =>
    intro q hq
    rcases hq with ⟨hq1, hq2⟩
    rcases Finset.mem_insert.mp hq2 with hqp | hq2'
    · exact h (Or.inl (hqp ▸ hq1))
    · exact hs q ⟨hq1, hq2'⟩
  | renderAbort p =>
    intro q hq
    exact hs q ⟨hq.1, (Finset.mem_erase.mp hq.2).2⟩
  | renderSuccess p =>
    intro q hq
    rcases hq with ⟨hq1, hq2⟩
    rcases Finset.mem_erase.mp hq2 with ⟨hqp, hq2'⟩
    rcases Finset.mem_insert.mp hq1 with hqp' | hq1'
    · exact hqp hqp'
    · exact hs q ⟨hq1', hq2'⟩
  | destroy =>
    intro q hq
    simp [destroyFlipbook] at hq
  | createPages =>
    intro q hq
    simp [createFlipbookPages] at hq
  | resizeClear =>
    intro q hq
    simp at hq
  | setFields d n c w h l =>
    intro q hq
    exact hs q hq

lemma reachable_disjoint {s : ViewerState} (hs : Reachable s) :
    pageSetsDisjoint s := by
  induction hs with
  | refl =>
    intro p hp
    simp [initialState] at hp
  | tail _ hstep ih =>
    exact step_preserves_disjoint hstep ih

/-- `renderPage` never leaves a page stuck in `renderingPages`: whatever the
outcome, the rendering set after the call equals the one before it. -/
lemma renderPage_renderingPages (s : ViewerState) (p : ℤ) (out : RenderOutcome) :
    ((renderPage s p out).1).renderingPages = s.renderingPages := by
  unfold renderPage
  split
  · rfl
  · rename_i hguard
    have hp : p ∉ s.renderingPages := fun hmem => hguard (Or.inr (Or.inl hmem))
    cases out <;> simp [Finset.erase_insert hp]

/-- `renderPage` can only grow `renderedPages`, and only by its own page. -/
lemma renderPage_renderedPages (s : ViewerState) (p : ℤ) (out : RenderOutcome) :
    ((renderPage s p out).1).renderedPages = s.renderedPages ∨
      ((renderPage s p out).1).renderedPages = insert p s.renderedPages := by
  unfold renderPage
  split
  · exact Or.inl rfl
  · cases out <;> simp

/-- Every full `renderPage` call is a composition of execution segments. -/
lemma renderPage_steps (s : ViewerState) (p : ℤ) (out : RenderOutcome) :
    Relation.ReflTransGen Step s ((renderPage s p out).1) := by
  unfold renderPage
  split
  · exact Relation.ReflTransGen.refl
  · rename_i hguard
    cases out <;>
      exact Relation.ReflTransGen.tail
        (Relation.ReflTransGen.single (Step.renderEntry s p hguard)) (by first
          | exact Step.renderAbort _ p
          | exact Step.renderSuccess _ p)

/-- Every full `renderVisiblePages` call is a composition of execution
segments. -/
lemma renderVisiblePages_steps (s : ViewerState) (view : List ℤ)
    (outs : ℤ → RenderOutcome) :
    Relation.ReflTransGen Step s (renderVisiblePages s view outs) := by
  unfold renderVisiblePages
  generalize computePagesToRender s view = l
  induction l generalizing s with
  | nil => exact Relation.ReflTransGen.refl
  | cons p l ih =>
    exact Relation.ReflTransGen.trans (renderPage_steps s p (outs p)) (ih _)

/-- Folding `renderPage` over any worklist leaves `renderingPages` exactly as
it was: every issued rasterization has completed by the time the batch
returns. -/
lemma foldl_renderPage_renderingPages (l : List ℤ) (s : ViewerState)
    (outs : ℤ → RenderOutcome) :
    (l.foldl (fun t pageNum => (renderPage t pageNum (outs pageNum)).1) s).renderingPages =
      s.renderingPages := by
  induction l generalizing s with
  | nil => rfl
  | cons p l ih =>
    rw [List.foldl_cons, ih, renderPage_renderingPages]

lemma calculateDimensionsForPdf_preserves (s : ViewerState) (wrapper : Option Rect)
    (aspectRatio : ℚ) :
    (calculateDimensionsForPdf s wrapper aspectRatio).renderedPages = s.renderedPages ∧
      (calculateDimensionsForPdf s wrapper aspectRatio).renderingPages = s.renderingPages ∧
      (calculateDimensionsForPdf s wrapper aspectRatio).totalPages = s.totalPages := by
  cases wrapper <;> exact ⟨rfl, rfl, rfl⟩

/-- A ten-page document with nothing rendered yet: the state right after a
fresh load, used as concrete input for witnesses and examples. -/
def tenPageState : ViewerState :=
  { initialState with pdfDoc := some 1
                      totalPages := 10 }

/-- A ten-page document whose page 5 is mid-rasterization, used as concrete
counterexample input. -/
def midRenderState : ViewerState :=
  { tenPageState with renderingPages := {5} }

/-- C1: for every page index already in the rendered set or the rendering set,
`renderPage` is a no-op — it performs zero rasterization calls and returns the
state (hence the rendered set, the rendering set, and the dimension fields)
unchanged. -/
theorem renderPage_noop_of_mem (s : ViewerState) (p : ℤ) (out : RenderOutcome)
    (h : p ∈ s.renderedPages ∨ p ∈ s.renderingPages) :
    renderPage s p out = (s, 0) := by
  unfold renderPage
  rw [if_pos (by tauto)]

theorem renderPage_noop_of_mem_witness :
    ((3 : ℤ) ∈ ({ tenPageState with renderedPages := {3} } : ViewerState).renderedPages ∨
      (3 : ℤ) ∈ ({ tenPageState with renderedPages := {3} } : ViewerState).renderingPages) ∧
    renderPage { tenPageState with renderedPages := {3} } 3 .success
      = ({ tenPageState with renderedPages := {3} }, 0) :=
  ⟨Or.inl (by decide), renderPage_noop_of_mem _ 3 .success (Or.inl (by decide))⟩

/-- C2: in every reachable viewer state no page index is simultaneously in the
rendered set and the rendering set, and every `renderPage` call leaves the
rendering set exactly as it found it — any index it adds is removed again by
the time the call completes, whatever the outcome. -/
theorem reachable_disjoint_and_rendering_transient :
    (∀ s : ViewerState, Reachable s → ∀ p : ℤ,
        ¬(p ∈ s.renderedPages ∧ p ∈ s.renderingPages)) ∧
      (∀ (s : ViewerState) (p : ℤ) (out : RenderOutcome),
        ((renderPage s p out).1).renderingPages = s.renderingPages) :=
  ⟨fun _ hs => reachable_disjoint hs, renderPage_renderingPages⟩

theorem reachable_disjoint_and_rendering_transient_witness :
    ¬((3 : ℤ) ∈ (destroyFlipbook initialState).renderedPages ∧
      (3 : ℤ) ∈ (destroyFlipbook initialState).renderingPages) :=
  reachable_disjoint_and_rendering_transient.1 (destroyFlipbook initialState)
    (Relation.ReflTransGen.single (Step.destroy initialState)) 3

/-- C3: for a double-page view `[a, a+1]`, the worklist computed by
`renderVisiblePages` is exactly the visible range widened by two pages on each
side, clamped to `[1, totalPages]`, minus the pages already rendered or
rendering; in particular with nothing rendered, view `[3,4]` of a ten-page
document yields `{1,2,3,4,5,6}` and view `[1,2]` yields `{1,2,3,4}`. -/
theorem renderVisiblePages_worklist :
    (∀ (s : ViewerState) (a : ℤ),
      (computePagesToRender s [a, a + 1]).toFinset =
        (Finset.Icc (a - 2) (a + 3) ∩ Finset.Icc 1 s.totalPages) \
          (s.renderedPages ∪ s.renderingPages)) ∧
    (computePagesToRender tenPageState [3, 4]).toFinset = {1, 2, 3, 4, 5, 6} ∧
    (computePagesToRender tenPageState [1, 2]).toFinset = {1, 2, 3, 4} := by
  refine ⟨fun s a => ?_, by decide, by decide⟩
  have hadj : adjacentPages [a, a + 1] = [a - 1, a - 2, a + 1 + 1, a + 1 + 2] := rfl
  ext n
  simp only [computePagesToRender, hadj, shouldRender, List.toFinset_append,
    Finset.mem_union, List.mem_toFinset, List.mem_filter, List.mem_cons,
    List.not_mem_nil, or_false, decide_eq_true_eq, Finset.mem_sdiff,
    Finset.mem_inter, Finset.mem_Icc]
  rw [← or_and_right]
  constructor
  · rintro ⟨hr, h1, h2, h3, h4⟩
    exact ⟨⟨by omega, by omega, h2⟩, by tauto⟩
  · rintro ⟨⟨⟨hra, hrb⟩, h1, h2⟩, hno⟩
    exact ⟨by omega, by omega, h2, fun hmem => hno (Or.inl hmem),
      fun hmem => hno (Or.inr hmem)⟩

/-- C4: when the rasterization of a fresh page fails, the page ends up absent
from both the rendered and the rendering set (the state is exactly as before
the call); any `renderVisiblePages` batch leaves the rendering set as it found
it, so the batch completes with every issued rasterization finished; and a
later `renderPage` for the failed page is not blocked — it performs one
rasterization call and, on success, adds the page to the rendered set. -/
theorem renderPage_failure_recovery (s : ViewerState) (p : ℤ)
    (h1 : p ∉ s.renderedPages) (h2 : p ∉ s.renderingPages)
    (h3 : p ≤ s.totalPages) :
    ((renderPage s p .renderFail).1.renderedPages = s.renderedPages ∧
      (renderPage s p .renderFail).1.renderingPages = s.renderingPages ∧
      p ∉ (renderPage s p .renderFail).1.renderedPages ∧
      p ∉ (renderPage s p .renderFail).1.renderingPages) ∧
    (∀ (t : ViewerState) (view : List ℤ) (outs : ℤ → RenderOutcome),
      (renderVisiblePages t view outs).renderingPages = t.renderingPages) ∧
    ((renderPage (renderPage s p .renderFail).1 p .success).1.renderedPages
        = insert p s.renderedPages ∧
      (renderPage (renderPage s p .renderFail).1 p .success).2 = 1) := by
  have hguard : ¬(p ∈ s.renderedPages ∨ p ∈ s.renderingPages ∨ p > s.totalPages) := by
    push_neg
    exact ⟨h1, h2, h3⟩
  have hfail : renderPage s p .renderFail = (s, 1) := by
    unfold renderPage
    rw [if_neg hguard]
    simp [Finset.erase_insert h2]
  refine ⟨?_, ?_, ?_⟩
  · rw [hfail]
    exact ⟨rfl, rfl, h1, h2⟩
  · intro t view outs
    exact foldl_renderPage_renderingPages _ t outs
  · rw [hfail]
    unfold renderPage
    rw [if_neg hguard]
    simp

theorem renderPage_failure_recovery_witness :
    (renderPage tenPageState 2 .renderFail).1.renderedPages
        = tenPageState.renderedPages ∧
    (renderVisiblePages tenPageState [1, 2]
        (fun _ => .renderFail)).renderingPages = tenPageState.renderingPages ∧
    (renderPage (renderPage tenPageState 2 .renderFail).1 2 .success).2 = 1 :=
  ⟨(renderPage_failure_recovery tenPageState 2 (by decide) (by decide)
      (by decide)).1.1,
   (renderPage_failure_recovery tenPageState 2 (by decide) (by decide)
      (by decide)).2.1 tenPageState [1, 2] _,
   (renderPage_failure_recovery tenPageState 2 (by decide) (by decide)
      (by decide)).2.2.2⟩

/-- C5: both dimension calculators implement exactly the two-branch rule the
spec describes (`specPageDims`): start from the height-constrained pair, and
if the doubled width exceeds the available width, switch to the
width-constrained pair; the stored width and height are the floors of those
values, with available space being the container minus this function's margin
(60px for the PDF variant, 40px with the fixed 8.5/11 ratio otherwise). -/
theorem calculateDimensions_matches_spec :
    (∀ (s : ViewerState) (wrapperRect : Rect) (aspectRatio : ℚ),
      ((calculateDimensionsForPdf s (some wrapperRect) aspectRatio).pageWidth,
       (calculateDimensionsForPdf s (some wrapperRect) aspectRatio).pageHeight) =
        specPageDims (wrapperRect.width - 60) (wrapperRect.height - 60) aspectRatio) ∧
    (∀ (s : ViewerState) (wrapperRect : Rect),
      ((calculateDimensions s (some wrapperRect)).1.pageWidth,
       (calculateDimensions s (some wrapperRect)).1.pageHeight) =
        specPageDims (wrapperRect.width - 40) (wrapperRect.height - 40) (8.5 / 11)) := by
  constructor
  · intro s wrapperRect aspectRatio
    simp only [calculateDimensionsForPdf, specPageDims]
    split_ifs with hcode hspec hspec
    · rfl
    · exact absurd (by linarith [hcode]) hspec
    · exact absurd (by linarith [hspec]) hcode
    · rfl
  · intro s wrapperRect
    simp only [calculateDimensions, specPageDims]
    split_ifs with hcode hspec hspec
    · rfl
    · exact absurd (by linarith [hcode]) hspec
    · exact absurd (by linarith [hspec]) hcode
    · rfl

/-- C6: for a 1000×800 container, `calculateDimensions` (margin 40, aspect
ratio 8.5/11) takes the width-constrained branch — the doubled height-first
width exceeds the available width — and stores exactly 480×621. -/
theorem calculateDimensions_1000x800 :
    ((800 : ℚ) - 40) * (8.5 / 11) * 2 > (1000 : ℚ) - 40 ∧
    (calculateDimensions initialState (some ⟨1000, 800⟩)).1.pageWidth = 480 ∧
    (calculateDimensions initialState (some ⟨1000, 800⟩)).1.pageHeight = 621 := by
  refine ⟨by norm_num, ?_, ?_⟩ <;> norm_num [calculateDimensions]

/-- C7 counterexample: after a resize (with page 5 mid-rasterization) the
rendering set is not cleared — it still holds page 5 — and the subsequent
window computation for view `[5,6]` skips page 5 even though it is not
rendered.  This refutes the claim that both page-state sets are cleared on
resize and that no page of the window is skipped afterwards. -/
theorem handleResize_keeps_renderingPages :
    (handleResizeRecalc midRenderState (some ⟨1000, 800⟩) (8.5 / 11)).renderingPages ≠ ∅ ∧
    (5 : ℤ) ∉ computePagesToRender
        (handleResizeRecalc midRenderState (some ⟨1000, 800⟩) (8.5 / 11)) [5, 6] := by
  have hstate : handleResizeRecalc midRenderState (some ⟨1000, 800⟩) (8.5 / 11)
      = { calculateDimensionsForPdf midRenderState (some ⟨1000, 800⟩) (8.5 / 11) with
          renderedPages := ∅ } := rfl
  rw [hstate]
  constructor
  · decide
  · simp only [computePagesToRender, adjacentPages, shouldRender]
    simp
    decide

/-- C7 (amended): document reload (`destroyFlipbook`) clears both page-state
sets; a resize clears only the rendered set, leaving the rendering set
untouched, so after a resize the rendered set is empty and a subsequent
window computation re-issues rasterization for every valid page of the view
that is not still mid-rasterization. -/
theorem invalidation_on_reload_and_resize (s : ViewerState)
    (wrapper : Option Rect) (aspectRatio : ℚ) (d : ℕ)
    (hdoc : s.pdfDoc = some d) :
    ((destroyFlipbook s).renderedPages = ∅ ∧
      (destroyFlipbook s).renderingPages = ∅) ∧
    (handleResizeRecalc s wrapper aspectRatio).renderedPages = ∅ ∧
    (handleResizeRecalc s wrapper aspectRatio).renderingPages = s.renderingPages ∧
    (∀ (view : List ℤ) (n : ℤ), n ∈ view → 0 < n → n ≤ s.totalPages →
      n ∉ s.renderingPages →
      n ∈ computePagesToRender (handleResizeRecalc s wrapper aspectRatio) view) := by
  have hr : handleResizeRecalc s wrapper aspectRatio
      = { calculateDimensionsForPdf s wrapper aspectRatio with renderedPages := ∅ } := by
    unfold handleResizeRecalc
    rw [hdoc]
  obtain ⟨hred, hring, htot⟩ :=
    calculateDimensionsForPdf_preserves s wrapper aspectRatio
  refine ⟨⟨rfl, rfl⟩, by rw [hr], by rw [hr]; exact hring, ?_⟩
  intro view n hview hpos hle hnr
  apply List.mem_append_left
  apply List.mem_filter.mpr
  refine ⟨hview, decide_eq_true ?_⟩
  rw [hr]
  exact ⟨hpos, htot ▸ hle, by simp, hring ▸ hnr⟩

theorem invalidation_on_reload_and_resize_witness :
    (handleResizeRecalc tenPageState none 1).renderedPages = ∅ ∧
    (3 : ℤ) ∈ computePagesToRender (handleResizeRecalc tenPageState none 1) [3, 4] :=
  ⟨(invalidation_on_reload_and_resize tenPageState none 1 1 rfl).2.1,
   (invalidation_on_reload_and_resize tenPageState none 1 1 rfl).2.2.2 [3, 4] 3
     (by decide) (by decide) (by decide) (by decide)⟩

/-- C8 counterexample: a zero-size container does not fall back to the
400×500 default — `calculateDimensions` derives (negative) dimensions from
the zero bounds instead. -/
theorem zero_container_no_fallback :
    (calculateDimensions initialState (some ⟨0, 0⟩)).1.pageWidth ≠ 400 ∧
    (calculateDimensions initialState (some ⟨0, 0⟩)).2 ≠ some (400, 500) := by
  constructor <;> norm_num [calculateDimensions]

/-- C8 (amended): only a missing container element triggers the fallback:
`calculateDimensions` then returns the literal 400×500 but leaves the stored
dimension fields (and the rest of the state) unchanged, and
`calculateDimensionsForPdf` returns with no state change at all.  A zero-size
container is not special-cased. -/
theorem missing_container_fallback (s : ViewerState) (aspectRatio : ℚ) :
    (calculateDimensions s none).2 = some (400, 500) ∧
    (calculateDimensions s none).1 = s ∧
    calculateDimensionsForPdf s none aspectRatio = s :=
  ⟨rfl, rfl, rfl⟩

/-- C9: a `loadPdf` call made while a previous load is in progress returns
immediately with the whole viewer state — document handle, page count, both
page-state sets, dimensions — unchanged. -/
theorem loadPdf_noop_while_loading (s : ViewerState) (docId : ℕ)
    (res : LoadResult) (wrapper : Option Rect) (view : List ℤ)
    (outs : ℤ → RenderOutcome) (h : s.isLoading = true) :
    loadPdf s docId res wrapper view outs = s := by
  simp [loadPdf, h]

theorem loadPdf_noop_while_loading_witness :
    ({ initialState with isLoading := true } : ViewerState).isLoading = true ∧
    loadPdf { initialState with isLoading := true } 0 .failure none []
        (fun _ => .success) = { initialState with isLoading := true } :=
  ⟨rfl, loadPdf_noop_while_loading _ 0 .failure none [] _ rfl⟩

/-- C10: when `renderPage` finds no canvas for a fresh page, it returns with
zero rasterization calls and the state exactly as before — the page is out of
the rendering set and not in the rendered set — and a later `renderPage` for
the same page proceeds as a fresh render (one rasterization call, page
rendered on success). -/
theorem renderPage_noCanvas_retryable (s : ViewerState) (p : ℤ)
    (h1 : p ∉ s.renderedPages) (h2 : p ∉ s.renderingPages)
    (h3 : p ≤ s.totalPages) :
    renderPage s p .noCanvas = (s, 0) ∧
    (renderPage s p .success).1.renderedPages = insert p s.renderedPages ∧
    (renderPage s p .success).2 = 1 := by
  have hguard : ¬(p ∈ s.renderedPages ∨ p ∈ s.renderingPages ∨ p > s.totalPages) := by
    push_neg
    exact ⟨h1, h2, h3⟩
  unfold renderPage
  rw [if_neg hguard, if_neg hguard]
  simp [Finset.erase_insert h2]

theorem renderPage_noCanvas_retryable_witness :
    renderPage tenPageState 4 .noCanvas = (tenPageState, 0) ∧
    (renderPage tenPageState 4 .success).1.renderedPages
        = insert 4 tenPageState.renderedPages ∧
    (renderPage tenPageState 4 .success).2 = 1 :=
  renderPage_noCanvas_retryable tenPageState 4 (by decide) (by decide) (by decide)

end Flipbook
